import Mathlib

/-!
Shallow embedding of the Eye configuration service write path and result
renderers, translated from:

  * internal/eye/configuration_write.go  (ConfigurationWrite: process, add,
    remove, update, activate)
  * internal/eye.rest/util__respond.go   (respond, respondV1, respondV2)

Timestamps are modelled as integers counting milliseconds (the source emits
RFC-3339 with millisecond precision), with the textual sentinels `infinity`,
`never`, `unknown` and the empty string kept as explicit constructors of
`ValStr`.  Database interaction is modelled by an oracle that fixes the
outcome (error, rows affected, query row) of every prepared statement the
transaction script executes; each handler returns the reply `Result`
together with a trace recording begin/commit/rollback and the statements
whose execution the verified claims are about.
-/

namespace Eye

/-- The timestamp strings that travel through the system: the sentinels
recognized by the validity algebra plus concrete instants (integers, in
milliseconds). -/
inductive ValStr where
  | empty
  | never
  | unknown
  | infinity
  | instant (t : Int)
deriving DecidableEq, Repr

/-- Extended time as used for in-memory comparisons: a concrete instant or
the positive-time-infinity sentinel. -/
inductive XTime where
  | fin (t : Int)
  | posInf
deriving DecidableEq, Repr

/-- time.Time.Before on the modelled time values. -/
def XTime.before : XTime → XTime → Bool
  | XTime.fin a, XTime.fin b => decide (a < b)
  | XTime.fin _, XTime.posInf => true
  | XTime.posInf, _ => false

/-- Modelled from the spec: `v2.ParseValidity` (lib/eye.proto/v2 is not part
of the presented source).  The sentinel `infinity` maps to
positive-time-infinity; a concrete timestamp parses to its instant; any
other string fails to parse and yields the zero instant, mirroring Go's
time.Parse returning the zero time on error. -/
def ParseValidity : ValStr → XTime
  | ValStr.infinity => XTime.posInf
  | ValStr.instant t => XTime.fin t
  | _ => XTime.fin 0

/-- Modelled from the spec: `v2.FormatValidity`.  Positive-time-infinity
formats back to the sentinel `infinity`; instants format to themselves. -/
def FormatValidity : XTime → ValStr
  | XTime.posInf => ValStr.infinity
  | XTime.fin t => ValStr.instant t

/-- Modelled from the spec: `v2.ParseProvision`.  The sentinel `never`
(no deprovisioning recorded) is the tombstone ordered after every instant,
so the backdate clamp of remove does not fire on a never-deprovisioned
revision (spec section 4.3.2 clamp rules and scenario S3); other strings
behave as in `ParseValidity`. -/
def ParseProvision : ValStr → XTime
  | ValStr.never => XTime.posInf
  | ValStr.instant t => XTime.fin t
  | _ => XTime.fin 0

/-- Modelled from the spec: `v2.FormatProvision`, inverse of
`ParseProvision` on the modelled values. -/
def FormatProvision : XTime → ValStr
  | XTime.posInf => ValStr.never
  | XTime.fin t => ValStr.instant t

/-- The 15 minute deprovisioning grace window, in model milliseconds. -/
def fifteenMin : Int := 15 * 60 * 1000

/-- msg.TaskRollout -/
def taskRollout : String := "rollout"

/-- msg.TaskDeprovision -/
def taskDeprovision : String := "deprovision"

/-- msg.TaskDelete -/
def taskDelete : String := "delete"

/-- msg.TaskClearing -/
def taskClearing : String := "clearing"

/-- Request actions handled by the write worker; `list` and `search` stand
for the further actions of the message vocabulary that the write worker
does not support. -/
inductive Action where
  | add
  | remove
  | update
  | activate
  | nop
  | list
  | search
deriving DecidableEq, Repr

/-- The sections whose results the renderers shape. -/
inductive Section where
  | configuration
  | deployment
  | lookup
  | registration
deriving DecidableEq, Repr

/-- msg protocol version enum. -/
inductive ProtocolVersion where
  | invalid
  | one
  | two
deriving DecidableEq, Repr

/-- v2.MetaInformation. -/
structure MetaInformation where
  validFrom : ValStr
  validUntil : ValStr
  provisionedAt : ValStr
  deprovisionedAt : ValStr
  tasks : List String
deriving DecidableEq, Repr

/-- The zero value v2.MetaInformation{} (all fields cleared). -/
def MetaInformation.empty : MetaInformation :=
  { validFrom := ValStr.empty, validUntil := ValStr.empty,
    provisionedAt := ValStr.empty, deprovisionedAt := ValStr.empty,
    tasks := [] }

/-- v2.Data: one revision of a configuration; `payload` stands for the
embedded threshold blob whose content the write path never inspects. -/
structure Data where
  id : String
  info : MetaInformation
  payload : String
deriving DecidableEq, Repr

/-- v2.Configuration. -/
structure Configuration where
  id : String
  lookupID : String
  hostID : Int
  metric : String
  activatedAt : ValStr
  data : List Data
deriving DecidableEq, Repr

/-- msg.Flags carried by requests and results. -/
structure Flags where
  sendDeploymentFeedback : Bool
  cacheInvalidation : Bool
  alarmClearing : Bool
  resetActivation : Bool
deriving DecidableEq, Repr

/-- msg.Request as consumed by the write worker. -/
structure Request where
  version : ProtocolVersion
  sect : Section
  action : Action
  lookupHash : String
  configurationTask : String
  flags : Flags
  feedbackURL : String
  configuration : Configuration
deriving DecidableEq, Repr

/-- msg.Result: the internal result envelope. -/
structure Result where
  version : ProtocolVersion
  sect : Section
  action : Action
  code : Nat
  error : Option String
  configuration : List Configuration
  registration : List String
  flags : Flags
  feedbackURL : String
deriving DecidableEq, Repr

/-- msg.ResultOK -/
def resultOK : Nat := 200

/-- msg.ResultBadRequest -/
def resultBadRequest : Nat := 400

/-- msg.ResultServerError -/
def resultServerError : Nat := 500

/-- Modelled from the spec: `msg.FromRequest` (the eye.msg package is not
part of the presented source) copies the request envelope into a fresh
result with empty payloads. -/
def fromRequest (q : Request) : Result :=
  { version := q.version, sect := q.sect, action := q.action, code := 0,
    error := none, configuration := [], registration := [],
    flags := q.flags, feedbackURL := q.feedbackURL }

/-- Modelled from the spec: `msg.Result.OK` sets the success status. -/
def Result.setOK (r : Result) : Result :=
  { r with code := resultOK }

/-- Modelled from the spec: `msg.Result.ServerError` records a server-side
failure (HTTP 500) with its message. -/
def Result.serverError (r : Result) (e : String) : Result :=
  { r with code := resultServerError, error := some e }

/-- Modelled from the spec: `msg.Result.UnknownRequest` flags an action
outside the supported set (HTTP 400, spec section 7). -/
def Result.unknownRequest (r : Result) : Result :=
  { r with code := resultBadRequest, error := some "unknown requested action" }

/-- Modelled from the spec: the failure result produced when
`msg.Result.ExpectedRows` sees a rows-affected count outside the expected
set (the row-count contract: the deviation aborts the transaction with an
InvariantViolation, rendered as HTTP 500). -/
def Result.invariantViolation (r : Result) (n : Int) : Result :=
  { r with code := resultServerError,
           error := some ("invariant violation: statement affected " ++ toString n ++ " rows") }

/-- Outcome of executing a prepared statement: a database error or a
rows-affected count. -/
inductive ExecOutcome where
  | err (e : String)
  | ok (n : Int)
deriving DecidableEq, Repr

/-- Outcome of a single-row query: sql.ErrNoRows, another database error,
or the selected row. -/
inductive QueryOutcome (α : Type) where
  | noRows
  | err (e : String)
  | row (a : α)
deriving DecidableEq, Repr

/-- Error message standing for a failed conn.Begin. -/
def beginErr : String := "begin transaction error"

/-- Error message standing for a failed tx.Commit. -/
def commitErr : String := "commit error"

/-! ## add -/

/-- Database oracle for the add transaction: outcome of every statement the
script may execute, plus the transaction timestamp and the freshly minted
data id. -/
structure AddOracle where
  now : Int
  freshID : String
  beginOk : Bool
  lookupAdd : ExecOutcome
  cfgAddID : ExecOutcome
  selectValid : QueryOutcome (String × Int)
  updateValidity : ExecOutcome
  addData : ExecOutcome
  provAdd : ExecOutcome
  activationGet : QueryOutcome Int
  commitOk : Bool
deriving DecidableEq, Repr

/-- Trace of the add transaction: begin/commit/rollback plus the arguments
of the provisioning-record insert when it executed. -/
structure AddTrace where
  began : Bool
  committed : Bool
  rolledBack : Bool
  provAddExec : Option (String × Int × List String)
deriving DecidableEq, Repr

/-- Commit and reply phase of add: on successful commit the reply echoes
the configuration with the rebuilt MetaInformation (valid from the rollout
timestamp to infinity, task rollout) and the activation timestamp found in
the transaction. -/
def addCommitPhase (o : AddOracle) (mr : Result) (cfg1 : Configuration)
    (d0 : Data) (activatedAt : ValStr)
    (pa : Option (String × Int × List String)) : Result × AddTrace :=
  if o.commitOk then
    let dataF : Data :=
      { d0 with id := o.freshID,
                info := { validFrom := ValStr.instant o.now,
                          validUntil := ValStr.infinity,
                          provisionedAt := ValStr.instant o.now,
                          deprovisionedAt := ValStr.never,
                          tasks := [taskRollout] } }
    let cfgF : Configuration :=
      { cfg1 with activatedAt := activatedAt, data := [dataF] }
    ({ mr with configuration := mr.configuration ++ [cfgF], code := resultOK },
     ⟨true, true, false, pa⟩)
  else (mr.serverError commitErr, ⟨true, false, false, pa⟩)

/-- Data-insert, provisioning-insert and activation-query phase of add.
The Go source discards the sql.Result of the provisioning insert (res is
not rebound at stmtProvAdd) and the ExpectedRows check that follows re-tests
the stale rows-affected count n of the preceding data insert. -/
def addInsertPhase (o : AddOracle) (mr : Result) (cfg1 : Configuration)
    (d0 : Data) : Result × AddTrace :=
  match o.addData with
  | ExecOutcome.err e => (mr.serverError e, ⟨true, false, true, none⟩)
  | ExecOutcome.ok n =>
    if n = 1 then
      match o.provAdd with
      | ExecOutcome.err e => (mr.serverError e, ⟨true, false, true, none⟩)
      | ExecOutcome.ok _ =>
        let pa := some (o.freshID, o.now, [taskRollout])
        -- stale check: res still holds the data-insert result here
        if n = 1 then
          match o.activationGet with
          | QueryOutcome.err e => (mr.serverError e, ⟨true, false, true, pa⟩)
          | QueryOutcome.noRows => addCommitPhase o mr cfg1 d0 ValStr.never pa
          | QueryOutcome.row a => addCommitPhase o mr cfg1 d0 (ValStr.instant a) pa
        else (mr.invariantViolation n, ⟨true, false, true, pa⟩)
    else (mr.invariantViolation n, ⟨true, false, true, none⟩)

/-- The add transaction body once the head revision d0 of the request's
data list has been read. -/
def addGo (q : Request) (o : AddOracle) (d0 : Data) : Result × AddTrace :=
  let mr := fromRequest q
  let dataA : Data := { d0 with id := o.freshID, info := MetaInformation.empty }
  let cfg1 : Configuration :=
    { q.configuration with lookupID := q.lookupHash,
                           activatedAt := ValStr.unknown, data := [dataA] }
  -- jsonb := Marshal cfg1; marshalling this shape cannot fail
  if o.beginOk then
    match o.lookupAdd with
    | ExecOutcome.err e => (mr.serverError e, ⟨true, false, true, none⟩)
    | ExecOutcome.ok n1 =>
      if n1 = 0 ∨ n1 = 1 then
        match o.cfgAddID with
        | ExecOutcome.err e => (mr.serverError e, ⟨true, false, true, none⟩)
        | ExecOutcome.ok n2 =>
          if n2 = 0 ∨ n2 = 1 then
            match o.selectValid with
            | QueryOutcome.err e => (mr.serverError e, ⟨true, false, true, none⟩)
            | QueryOutcome.noRows => addInsertPhase o mr cfg1 d0
            | QueryOutcome.row _ =>
              match o.updateValidity with
              | ExecOutcome.err e => (mr.serverError e, ⟨true, false, true, none⟩)
              | ExecOutcome.ok n3 =>
                if n3 = 1 then addInsertPhase o mr cfg1 d0
                else (mr.invariantViolation n3, ⟨true, false, true, none⟩)
          else (mr.invariantViolation n2, ⟨true, false, true, none⟩)
      else (mr.invariantViolation n1, ⟨true, false, true, none⟩)
  else (mr.serverError beginErr, ⟨false, false, false, none⟩)

/-- add inserts a configuration profile into the database.  The source
reads q.Configuration.Data[0] before any other work; on an empty data list
that indexing panics (modelled as none). -/
def add (q : Request) (o : AddOracle) : Option (Result × AddTrace) :=
  match q.configuration.data with
  | [] => none
  | d0 :: _ => some (addGo q o d0)

/-! ## remove -/

/-- Modelled from the spec: the row shape returned by `txCfgLoadActive`
(helper not part of the presented source): the configuration envelope
together with its single currently-active data revision. -/
structure LoadedActive where
  cfg : Configuration
  data : Data
deriving DecidableEq, Repr

/-- Database oracle for the remove transaction. -/
structure RemoveOracle where
  now : Int
  beginOk : Bool
  loadActive : QueryOutcome LoadedActive
  setValidity : ExecOutcome
  provFinalize : ExecOutcome
  activationDel : ExecOutcome
  commitOk : Bool
deriving DecidableEq, Repr

/-- Trace of the remove transaction: begin/commit/rollback plus the
arguments (data id, finalize timestamp, task) of the provisioning finalize
statement when it executed. -/
structure RemoveTrace where
  began : Bool
  committed : Bool
  rolledBack : Bool
  provFinalizeExec : Option (String × XTime × String)
deriving DecidableEq, Repr

/-- remove marks a configuration as deprovisioning (15 minute grace
window), deleting, or clearing, clamping against metadata already present
on the active revision. -/
def remove (q : Request) (o : RemoveOracle) : Result × RemoveTrace :=
  let mr := fromRequest q
  let transactionTS := o.now
  let task :=
    if q.configurationTask = taskDelete then taskDelete
    else if q.flags.alarmClearing then taskClearing
    else taskDeprovision
  let validUntil0 : XTime :=
    if q.configurationTask = taskDelete then XTime.fin transactionTS
    else XTime.fin (transactionTS + fifteenMin)
  if o.beginOk then
    match o.loadActive with
    | QueryOutcome.noRows =>
      -- that which does not exist can not be deleted: commit the no-op
      if o.commitOk then (mr.setOK, ⟨true, true, false, none⟩)
      else (mr.serverError commitErr, ⟨true, false, false, none⟩)
    | QueryOutcome.err e => (mr.serverError e, ⟨true, false, true, none⟩)
    | QueryOutcome.row la =>
      -- keep an already-expiring validUntil as is
      let validUntil : XTime :=
        if ParseValidity la.data.info.validUntil = XTime.posInf then validUntil0
        else ParseValidity la.data.info.validUntil
      -- an earlier deprovisioning instant backdates the transaction
      let ts : XTime :=
        if XTime.before (ParseProvision la.data.info.deprovisionedAt)
            (XTime.fin transactionTS)
        then ParseProvision la.data.info.deprovisionedAt
        else XTime.fin transactionTS
      let d1 : Data :=
        { la.data with info := { la.data.info with
            validUntil := FormatValidity validUntil,
            deprovisionedAt := FormatProvision ts } }
      let cfg1 : Configuration := { la.cfg with data := [d1] }
      let mr1 := { mr with configuration := mr.configuration ++ [cfg1] }
      let pf := some (la.data.id, ts, task)
      match o.setValidity with
      | ExecOutcome.err e => (mr1.serverError e, ⟨true, false, true, none⟩)
      | ExecOutcome.ok n =>
        if n = 1 then
          match o.provFinalize with
          | ExecOutcome.err e => (mr1.serverError e, ⟨true, false, true, pf⟩)
          | ExecOutcome.ok m =>
            if m = 1 then
              if q.flags.resetActivation then
                match o.activationDel with
                | ExecOutcome.err e => (mr1.serverError e, ⟨true, false, true, pf⟩)
                | ExecOutcome.ok k =>
                  if k = 0 ∨ k = 1 then
                    if o.commitOk then (mr1.setOK, ⟨true, true, false, pf⟩)
                    else (mr1.serverError commitErr, ⟨true, false, false, pf⟩)
                  else (mr1.invariantViolation k, ⟨true, false, true, pf⟩)
              else
                if o.commitOk then (mr1.setOK, ⟨true, true, false, pf⟩)
                else (mr1.serverError commitErr, ⟨true, false, false, pf⟩)
            else (mr1.invariantViolation m, ⟨true, false, true, pf⟩)
        else (mr1.invariantViolation n, ⟨true, false, true, none⟩)
  else (mr.serverError beginErr, ⟨false, false, false, none⟩)

/-! ## update -/

/-- Database oracle for the update transaction. -/
structure UpdateOracle where
  beginOk : Bool
  updateExec : ExecOutcome
  commitOk : Bool
deriving DecidableEq, Repr

/-- Trace of the update transaction. -/
structure UpdateTrace where
  began : Bool
  committed : Bool
  rolledBack : Bool
deriving DecidableEq, Repr

/-- update replaces a configuration in place through the single
configuration-update statement, which must affect exactly one row. -/
def update (q : Request) (o : UpdateOracle) : Result × UpdateTrace :=
  let mr := fromRequest q
  -- jsonb := Marshal q.configuration; marshalling this shape cannot fail
  if o.beginOk then
    match o.updateExec with
    | ExecOutcome.err e => (mr.serverError e, ⟨true, false, true⟩)
    | ExecOutcome.ok n =>
      if n = 1 then
        if o.commitOk then (mr.setOK, ⟨true, true, false⟩)
        else (mr.serverError commitErr, ⟨true, false, false⟩)
      else
        (mr.serverError ("Rollback: update statement affected " ++ toString n ++ " rows"),
         ⟨true, false, true⟩)
  else (mr.serverError beginErr, ⟨false, false, false⟩)

/-! ## activate and process -/

/-- Database oracle for activate (runs outside a transaction). -/
structure ActivateOracle where
  activationSet : ExecOutcome
deriving DecidableEq, Repr

/-- activate records a configuration activation.  Modelled from the spec
where it leans on `msg.Result.RowCnt` (not part of the presented source):
one affected row attaches the configuration to the payload, zero returns OK
with no payload, anything else is a server error. -/
def activate (q : Request) (o : ActivateOracle) : Result :=
  let mr := fromRequest q
  match o.activationSet with
  | ExecOutcome.err e => mr.serverError e
  | ExecOutcome.ok n =>
    if n = 0 then mr.setOK
    else if n = 1 then
      { mr.setOK with configuration := mr.configuration ++ [q.configuration] }
    else mr.serverError ("unexpected number of rows affected: " ++ toString n)

/-- The oracles of all four handlers, bundled for the dispatcher. -/
structure Oracle where
  addO : AddOracle
  removeO : RemoveOracle
  updateO : UpdateOracle
  activateO : ActivateOracle
deriving DecidableEq, Repr

/-- process is the request dispatcher called by Run; the returned list
holds the results sent on the request's reply sink.  An add on an empty
data list panics before the reply is sent, so that path emits nothing. -/
def process (q : Request) (o : Oracle) : List Result :=
  match q.action with
  | Action.add =>
    match add q o.addO with
    | some p => [p.1]
    | none => []
  | Action.remove => [(remove q o.removeO).1]
  | Action.update => [(update q o.updateO).1]
  | Action.activate => [activate q o.activateO]
  | Action.nop => [(fromRequest q).setOK]
  | _ => [(fromRequest q).unknownRequest]

/-! ## renderers -/

/-- The external v2 protocol result. -/
structure V2Result where
  status : Nat
  sect : Section
  act : Action
  errors : List String
  configurations : List Configuration
  registrations : List String
deriving DecidableEq, Repr

/-- Side effects dispatched by respondV2 after rendering, together with the
flag values after the error clamp. -/
structure SideEffects where
  somaFeedback : Option (String × String)
  cacheInvalidationAsync : Bool
  cacheInvalidationSync : Bool
  camsClearing : Bool
  flagsAfter : Flags
deriving DecidableEq, Repr

/-- respondV2 is the output function emitting API version 2 results.  The
empty protocol result containers (v2.NewConfigurationResult and
v2.NewRegistrationResult, not part of the presented source) are modelled
from the spec as empty payload lists; nilling out zero-length lists for
omitempty is the identity here. -/
def respondV2 (r : Result) : V2Result × SideEffects :=
  let errs : List String := match r.error with | some e => [e] | none => []
  let fb : String := match r.error with | some _ => "failed" | none => "success"
  let cfgs : List Configuration :=
    match r.sect with
    | Section.configuration => r.configuration
    | Section.deployment => r.configuration
    | Section.lookup => r.configuration
    | Section.registration => []
  let regs : List String :=
    match r.sect with
    | Section.registration => r.registration
    | _ => []
  if 400 ≤ r.code then
    -- no results are exported on error, no cache invalidation, no alarm
    -- clearing for failed requests
    ({ status := r.code, sect := r.sect, act := r.action, errors := errs,
       configurations := [], registrations := [] },
     { somaFeedback :=
         if r.flags.sendDeploymentFeedback then some (r.feedbackURL, "failed") else none,
       cacheInvalidationAsync := false,
       cacheInvalidationSync := false,
       camsClearing := false,
       flagsAfter := { r.flags with cacheInvalidation := false, alarmClearing := false } })
  else
    ({ status := r.code, sect := r.sect, act := r.action, errors := errs,
       configurations := cfgs, registrations := regs },
     { somaFeedback :=
         if r.flags.sendDeploymentFeedback then some (r.feedbackURL, fb) else none,
       cacheInvalidationAsync := r.flags.cacheInvalidation && !r.flags.alarmClearing,
       cacheInvalidationSync := r.flags.cacheInvalidation && r.flags.alarmClearing,
       camsClearing := r.flags.alarmClearing,
       flagsAfter := r.flags })

/-- What the v1 emitter writes on the wire. -/
inductive V1Out where
  | listOut (code : Nat) (errstr : String) (cfgs : List Configuration)
  | httpError (code : Nat) (body : String)
  | noContent
  | skipped
deriving DecidableEq, Repr

/-- Outcome of the protocol dispatch: a programmer-error panic, a v1 wire
output, or a v2 result with its side effects. -/
inductive RenderOut where
  | panicked (msg : String)
  | v1 (out : V1Out)
  | v2 (res : V2Result) (fx : SideEffects)
deriving DecidableEq, Repr

/-- Modelled from the spec: `msg.Result.ExportV1ConfigurationList` (not
part of the presented source) exports status code, error string and the
configuration list. -/
def ExportV1ConfigurationList (r : Result) : Nat × String × List Configuration :=
  (r.code, (match r.error with | some e => e | none => ""), r.configuration)

/-- respondV1 is the output function emitting API version 1 results. -/
def respondV1 (r : Result) : RenderOut :=
  match r.sect with
  | Section.registration =>
    RenderOut.panicked "API Protocol 1 does not have registrations"
  | Section.configuration =>
    match r.action with
    | Action.list =>
      let exp := ExportV1ConfigurationList r
      RenderOut.v1 (V1Out.listOut exp.1 exp.2.1 exp.2.2)
    | Action.remove =>
      match r.error with
      | some e =>
        if resultServerError ≤ r.code then RenderOut.v1 (V1Out.httpError 500 e)
        else if resultBadRequest ≤ r.code then RenderOut.v1 (V1Out.httpError 400 e)
        else RenderOut.v1 V1Out.noContent
      | none => RenderOut.v1 V1Out.noContent
    | _ => RenderOut.v1 V1Out.skipped
  | _ => RenderOut.v1 V1Out.skipped

/-- respond is the output function for all requests, dispatching on the
protocol version. -/
def respond (r : Result) : RenderOut :=
  match r.version with
  | ProtocolVersion.invalid => RenderOut.panicked "API Protocol 0 is not valid"
  | ProtocolVersion.one => respondV1 r
  | ProtocolVersion.two => RenderOut.v2 (respondV2 r).1 (respondV2 r).2

/-- Whether the dispatch ended in a panic. -/
def RenderOut.isPanic : RenderOut → Bool
  | RenderOut.panicked _ => true
  | _ => false

/-! ## order on timestamp strings, for stating the monotonicity claims -/

/-- Sort key for the total order of spec section 4.1 on timestamp strings:
`never` below every instant, `infinity` above every instant (the
non-timestamp strings `empty` and `unknown` are placed between `never` and
the instants; no claim compares them). -/
def vkey : ValStr → Int × Int
  | ValStr.never => (0, 0)
  | ValStr.empty => (1, 0)
  | ValStr.unknown => (1, 1)
  | ValStr.instant t => (2, t)
  | ValStr.infinity => (3, 0)

/-- The total order on timestamp strings. -/
def vleB (a b : ValStr) : Bool :=
  decide ((vkey a).1 < (vkey b).1 ∨ ((vkey a).1 = (vkey b).1 ∧ (vkey a).2 ≤ (vkey b).2))

/-- Minimum for the order `vleB`. -/
def vmin (a b : ValStr) : ValStr :=
  if vleB a b then a else b

/-! ## concrete example values used by witnesses and counterexamples -/

/-- All side-effect flags off. -/
def flagsOff : Flags :=
  { sendDeploymentFeedback := false, cacheInvalidation := false,
    alarmClearing := false, resetActivation := false }

/-- Deployment feedback, cache invalidation and alarm clearing requested. -/
def flagsAll : Flags :=
  { sendDeploymentFeedback := true, cacheInvalidation := true,
    alarmClearing := true, resetActivation := false }

/-- Metadata of a live revision: open validity, never deprovisioned. -/
def metaEx : MetaInformation :=
  { validFrom := ValStr.instant 0, validUntil := ValStr.infinity,
    provisionedAt := ValStr.instant 0, deprovisionedAt := ValStr.never,
    tasks := [taskRollout] }

/-- A concrete data revision. -/
def dataEx : Data := { id := "data-1", info := metaEx, payload := "blob" }

/-- A concrete configuration. -/
def cfgEx : Configuration :=
  { id := "cfg-1", lookupID := "lh-1", hostID := 42, metric := "cpu.usage",
    activatedAt := ValStr.never, data := [dataEx] }

/-- An internal result carrying an error status together with payload and
all side-effect flags, for exercising the error clamp of the v2 renderer. -/
def rErr : Result :=
  { version := ProtocolVersion.two, sect := Section.configuration,
    action := Action.add, code := 500, error := some "boom",
    configuration := [cfgEx], registration := [], flags := flagsAll,
    feedbackURL := "http://soma.example/feedback" }

/-- A v1 remove result carrying a server error. -/
def rV1Err : Result :=
  { version := ProtocolVersion.one, sect := Section.configuration,
    action := Action.remove, code := 500, error := some "db failure",
    configuration := [], registration := [], flags := flagsOff,
    feedbackURL := "" }

/-- A well-formed add request. -/
def qAdd : Request :=
  { version := ProtocolVersion.two, sect := Section.configuration,
    action := Action.add, lookupHash := "lh-1", configurationTask := "",
    flags := flagsOff, feedbackURL := "", configuration := cfgEx }

/-- An add request whose configuration carries no data revision. -/
def qAddEmpty : Request :=
  { qAdd with configuration := { cfgEx with data := [] } }

/-- A remove request (no TaskDelete, no flags). -/
def qRem : Request := { qAdd with action := Action.remove }

/-- An update request. -/
def qUpd : Request := { qAdd with action := Action.update }

/-- A request with an action outside the write worker's supported set. -/
def qList : Request := { qAdd with action := Action.list }

/-- An add oracle on which every statement behaves as expected. -/
def oAddOk : AddOracle :=
  { now := 1000, freshID := "uuid-1", beginOk := true,
    lookupAdd := ExecOutcome.ok 1, cfgAddID := ExecOutcome.ok 1,
    selectValid := QueryOutcome.noRows, updateValidity := ExecOutcome.ok 1,
    addData := ExecOutcome.ok 1, provAdd := ExecOutcome.ok 1,
    activationGet := QueryOutcome.noRows, commitOk := true }

/-- An add oracle identical to `oAddOk` except that the provisioning-record
insert affects 0 rows. -/
def oAddProvZero : AddOracle := { oAddOk with provAdd := ExecOutcome.ok 0 }

/-- The loaded active revision of `cfgEx`. -/
def laEx : LoadedActive := { cfg := cfgEx, data := dataEx }

/-- A remove oracle on which every statement behaves as expected. -/
def oRemOk : RemoveOracle :=
  { now := 2000, beginOk := true, loadActive := QueryOutcome.row laEx,
    setValidity := ExecOutcome.ok 1, provFinalize := ExecOutcome.ok 1,
    activationDel := ExecOutcome.ok 0, commitOk := true }

/-- An active revision whose DeprovisionedAt (instant 10) lies strictly
after the transaction timestamp of `oRemC5`. -/
def laC5 : LoadedActive :=
  { cfg := cfgEx,
    data := { dataEx with info := { metaEx with deprovisionedAt := ValStr.instant 10 } } }

/-- A remove oracle whose transaction timestamp 5 precedes the existing
DeprovisionedAt of `laC5`. -/
def oRemC5 : RemoveOracle :=
  { oRemOk with now := 5, loadActive := QueryOutcome.row laC5 }

/-- An update oracle whose update statement affects 3 rows. -/
def oUpd3 : UpdateOracle :=
  { beginOk := true, updateExec := ExecOutcome.ok 3, commitOk := true }

/-- The data revision echoed by remove on `qRem` against `oRemOk`:
ValidUntil 2000 + 900000, DeprovisionedAt 2000. -/
def dataRemW : Data :=
  { dataEx with info := { metaEx with validUntil := ValStr.instant 902000,
                                      deprovisionedAt := ValStr.instant 2000 } }

/-- The configuration echoed by remove on `qRem` against `oRemOk`. -/
def cfgRemW : Configuration := { cfgEx with data := [dataRemW] }

/-- A fully well-behaved oracle bundle for the dispatcher. -/
def oAll : Oracle :=
  { addO := oAddOk, removeO := oRemOk,
    updateO := { beginOk := true, updateExec := ExecOutcome.ok 1, commitOk := true },
    activateO := { activationSet := ExecOutcome.ok 1 } }

/-! ## theorems -/

/-- C1: for every result rendered by the v2 renderer whose status code is
at least 400, the rendered response contains no configuration objects and
no registration objects, the CacheInvalidation and AlarmClearing flags are
forced to false, and neither a cache-invalidation nor an alarm-clearing
side effect fires. -/
theorem respondV2_no_leak_on_error (r : Result) (h : 400 ≤ r.code) :
    (respondV2 r).1.configurations = [] ∧
    (respondV2 r).1.registrations = [] ∧
    (respondV2 r).2.flagsAfter.cacheInvalidation = false ∧
    (respondV2 r).2.flagsAfter.alarmClearing = false ∧
    (respondV2 r).2.cacheInvalidationAsync = false ∧
    (respondV2 r).2.cacheInvalidationSync = false ∧
    (respondV2 r).2.camsClearing = false := by
  simp [respondV2, h]

/-- C1 witness: the error clamp evaluated on the concrete result `rErr`. -/
theorem respondV2_no_leak_on_error_witness :
    (respondV2 rErr).1.configurations = [] ∧
    (respondV2 rErr).1.registrations = [] ∧
    (respondV2 rErr).2.flagsAfter.cacheInvalidation = false ∧
    (respondV2 rErr).2.flagsAfter.alarmClearing = false ∧
    (respondV2 rErr).2.cacheInvalidationAsync = false ∧
    (respondV2 rErr).2.cacheInvalidationSync = false ∧
    (respondV2 rErr).2.camsClearing = false :=
  respondV2_no_leak_on_error rErr (by decide)

/-- C2 counterexample: a v2 result with status 500 and the
SendDeploymentFeedback flag set still emits a deployment-feedback call
(with the token failed), so the claim that no deployment-feedback call is
emitted on status at least 400 is false. -/
theorem respondV2_error_feedback_cex :
    400 ≤ rErr.code ∧ rErr.flags.sendDeploymentFeedback = true ∧
    (respondV2 rErr).2.somaFeedback = some ("http://soma.example/feedback", "failed") ∧
    (respondV2 rErr).2.somaFeedback ≠ none := by
  decide

/-- C2 (amended): for every result rendered by the v2 renderer whose
status code is at least 400, no alarm-clearing call is emitted, and the
deployment-feedback call is not suppressed: it is emitted exactly when
SendDeploymentFeedback is set, carrying the token failed. -/
theorem respondV2_error_feedback (r : Result) (h : 400 ≤ r.code) :
    (respondV2 r).2.camsClearing = false ∧
    (respondV2 r).2.somaFeedback =
      (if r.flags.sendDeploymentFeedback then some (r.feedbackURL, "failed") else none) := by
  simp [respondV2, h]

/-- C2 witness: the amended feedback behavior evaluated on `rErr`. -/
theorem respondV2_error_feedback_witness :
    (respondV2 rErr).2.camsClearing = false ∧
    (respondV2 rErr).2.somaFeedback = some ("http://soma.example/feedback", "failed") := by
  have h := respondV2_error_feedback rErr (by decide)
  exact ⟨h.1, h.2.trans (by decide)⟩

/-- Pushing the panic test through a conditional render outcome. -/
theorem isPanic_ite (c : Prop) [Decidable c] (a b : RenderOut) :
    (if c then a else b).isPanic = (if c then a.isPanic else b.isPanic) := by
  split <;> rfl

/-- A panicked outcome tests as a panic. -/
theorem isPanic_panicked (m : String) : (RenderOut.panicked m).isPanic = true := rfl

/-- A v1 wire output is not a panic. -/
theorem isPanic_v1 (o : V1Out) : (RenderOut.v1 o).isPanic = false := rfl

/-- A v2 result with side effects is not a panic. -/
theorem isPanic_v2 (res : V2Result) (fx : SideEffects) :
    (RenderOut.v2 res fx).isPanic = false := rfl

/-- C8: the result renderer panics exactly when the result's protocol
version is ProtocolInvalid, or when the version is ProtocolOne and the
section is Registration; for ProtocolOne on other sections and for
ProtocolTwo it never panics on dispatch. -/
theorem respond_panic_iff (r : Result) :
    (respond r).isPanic = true ↔
      (r.version = ProtocolVersion.invalid ∨
       (r.version = ProtocolVersion.one ∧ r.sect = Section.registration)) := by
  rcases r with ⟨ver, sect, act, code, err, cfgs, regs, fl, url⟩
  cases ver <;> cases sect <;> cases act <;> cases err <;>
    simp [respond, respondV1, isPanic_ite, isPanic_panicked, isPanic_v1, isPanic_v2]

/-- C9: for every v1-rendered remove result on the Configuration section, a
result carrying an error and a server-error status code is rendered as
HTTP 500 with the error text, a result carrying an error and a bad-request
status code is rendered as HTTP 400 with the error text, and a successful
result is rendered as HTTP 204 with no body. -/
theorem respondV1_remove_codes (r : Result) (e : String)
    (hs : r.sect = Section.configuration) (ha : r.action = Action.remove) :
    (r.error = some e → resultServerError ≤ r.code →
      respondV1 r = RenderOut.v1 (V1Out.httpError 500 e)) ∧
    (r.error = some e → resultBadRequest ≤ r.code → r.code < resultServerError →
      respondV1 r = RenderOut.v1 (V1Out.httpError 400 e)) ∧
    (r.error = none → r.code = resultOK → respondV1 r = RenderOut.v1 V1Out.noContent) := by
  refine ⟨?_, ?_, ?_⟩
  · intro he hc
    simp [respondV1, hs, ha, he, hc]
  · intro he hc hlt
    have hns : ¬ (resultServerError ≤ r.code) := by
      simp only [resultServerError] at hlt ⊢
      omega
    simp [respondV1, hs, ha, he, hc, hns]
  · intro he _
    simp [respondV1, hs, ha, he]

/-- C9 witness: a server-error remove result rendered through the v1
emitter yields HTTP 500 with the error text. -/
theorem respondV1_remove_codes_witness :
    respondV1 rV1Err = RenderOut.v1 (V1Out.httpError 500 "db failure") :=
  (respondV1_remove_codes rV1Err "db failure" rfl rfl).1 rfl (by decide)

/-- C6: the update action succeeds if and only if its single update
statement affects exactly 1 row; a count N different from 1 yields a
ServerError whose message is "Rollback: update statement affected N rows"
and rolls the transaction back, and a count of exactly 1 commits and
returns OK. -/
theorem update_rowcount_contract (q : Request) (o : UpdateOracle) (n : Int)
    (hb : o.beginOk = true) (hx : o.updateExec = ExecOutcome.ok n) :
    (n ≠ 1 →
      (update q o).1.code = resultServerError ∧
      (update q o).1.error =
        some ("Rollback: update statement affected " ++ toString n ++ " rows") ∧
      (update q o).2.rolledBack = true ∧ (update q o).2.committed = false) ∧
    (n = 1 → o.commitOk = true →
      (update q o).1.code = resultOK ∧
      (update q o).2.committed = true ∧ (update q o).2.rolledBack = false) ∧
    ((update q o).1.code = resultOK → n = 1) := by
  refine ⟨?_, ?_, ?_⟩
  · intro hn
    simp [update, hb, hx, hn, Result.serverError]
  · intro hn hcm
    simp [update, hb, hx, hn, hcm, Result.setOK]
  · intro hok
    by_cases hn : n = 1
    · exact hn
    · exfalso
      simp [update, hb, hx, hn, Result.serverError, resultOK, resultServerError,
        fromRequest] at hok

/-- C6 witness: an update statement affecting 3 rows yields the explicit
rollback message and a rolled-back transaction. -/
theorem update_rowcount_contract_witness :
    (update qUpd oUpd3).1.code = resultServerError ∧
    (update qUpd oUpd3).1.error =
      some ("Rollback: update statement affected " ++ toString (3 : Int) ++ " rows") ∧
    (update qUpd oUpd3).2.rolledBack = true ∧ (update qUpd oUpd3).2.committed = false :=
  (update_rowcount_contract qUpd oUpd3 3 rfl rfl).1 (by decide)

/-- C10: the add handler reads the head of the request's configuration
data list before any database work; that read is in bounds (add does not
panic) exactly when the data list is non-empty, for every oracle. -/
theorem add_head_indexing (q : Request) (o : AddOracle) :
    (add q o).isNone = true ↔ q.configuration.data = [] := by
  cases hd : q.configuration.data <;> simp [add, hd]

/-- C7 counterexample: an add request carrying an empty data list panics
before the reply is sent, so zero results are emitted on the reply sink
and the claim that every request yields exactly one Result is false. -/
theorem process_reply_cex :
    qAddEmpty.action = Action.add ∧ process qAddEmpty oAll = [] := by
  exact ⟨rfl, rfl⟩

/-- C7 (amended): provided an Add request carries at least one data
element, every request processed by the write worker emits exactly one
Result on its reply sink, and any request whose action is outside the
supported set {Add, Remove, Update, Activate, Nop} yields the
UnknownRequest result. -/
theorem process_reply_contract (q : Request) (o : Oracle)
    (h : q.action = Action.add → q.configuration.data ≠ []) :
    (process q o).length = 1 ∧
    ((q.action = Action.list ∨ q.action = Action.search) →
      process q o = [(fromRequest q).unknownRequest]) := by
  cases hq : q.action with
  | add =>
    refine ⟨?_, ?_⟩
    · cases hd : q.configuration.data with
      | nil => exact absurd hd (h hq)
      | cons d ds => simp [process, hq, add, hd]
    · intro hc
      simp at hc
  | remove =>
    exact ⟨by simp [process, hq], by intro hc; simp at hc⟩
  | update =>
    exact ⟨by simp [process, hq], by intro hc; simp at hc⟩
  | activate =>
    exact ⟨by simp [process, hq], by intro hc; simp at hc⟩
  | nop =>
    exact ⟨by simp [process, hq], by intro hc; simp at hc⟩
  | list =>
    exact ⟨by simp [process, hq], by intro _; simp [process, hq]⟩
  | search =>
    exact ⟨by simp [process, hq], by intro _; simp [process, hq]⟩

/-- C7 witness: a request with the unsupported action list yields exactly
the UnknownRequest result. -/
theorem process_reply_contract_witness :
    (process qList oAll).length = 1 ∧
    process qList oAll = [(fromRequest qList).unknownRequest] := by
  have h := process_reply_contract qList oAll (fun hadd => absurd hadd (by decide))
  exact ⟨h.1, h.2 (Or.inl rfl)⟩

/-- C3 (code bug evaluated): with the provisioning-record insert affecting
0 rows and every other statement behaving as expected, the add transaction
still commits and returns OK with no rollback — the ExpectedRows check
after that insert re-tests the stale rows-affected count of the preceding
data insert, so the provisioning insert's own count is never checked. -/
theorem add_provisioning_rowcount_unchecked :
    oAddProvZero.provAdd = ExecOutcome.ok 0 ∧
    (add qAdd oAddProvZero).map (fun p => (p.1.code, p.2.committed, p.2.rolledBack))
      = some (resultOK, true, false) ∧
    (add qAdd oAddProvZero).map (fun p => p.2.provAddExec)
      = some (some ("uuid-1", 1000, [taskRollout])) := by
  exact ⟨rfl, rfl, rfl⟩

/-- C4: a remove request without TaskDelete on a configuration whose
active revision has ValidUntil infinity and DeprovisionedAt never, with the
transaction statements behaving, commits with OK; the revision's ValidUntil
becomes T plus 15 minutes, its DeprovisionedAt becomes T, and the
provisioning record is finalized at T with task deprovision, or clearing
when the AlarmClearing flag is set. -/
theorem remove_grace_window (q : Request) (o : RemoveOracle) (la : LoadedActive)
    (hb : o.beginOk = true)
    (hload : o.loadActive = QueryOutcome.row la)
    (htask : q.configurationTask ≠ taskDelete)
    (hvu : la.data.info.validUntil = ValStr.infinity)
    (hdp : la.data.info.deprovisionedAt = ValStr.never)
    (hsv : o.setValidity = ExecOutcome.ok 1)
    (hpf : o.provFinalize = ExecOutcome.ok 1)
    (hact : q.flags.resetActivation = true →
      o.activationDel = ExecOutcome.ok 0 ∨ o.activationDel = ExecOutcome.ok 1)
    (hc : o.commitOk = true) :
    (remove q o).1.code = resultOK ∧
    (remove q o).2.committed = true ∧
    ((remove q o).1.configuration.map fun c =>
        c.data.map fun d => (d.info.validUntil, d.info.deprovisionedAt))
      = [[(ValStr.instant (o.now + fifteenMin), ValStr.instant o.now)]] ∧
    (remove q o).2.provFinalizeExec =
      some (la.data.id, XTime.fin o.now,
        if q.flags.alarmClearing then taskClearing else taskDeprovision) := by
  cases hra : q.flags.resetActivation with
  | false =>
    simp [remove, hb, hload, hsv, hpf, hc, hvu, hdp, htask, hra, ParseValidity,
      ParseProvision, XTime.before, FormatValidity, FormatProvision, Result.setOK,
      fromRequest]
  | true =>
    rcases hact hra with hdel | hdel <;>
      simp [remove, hb, hload, hsv, hpf, hc, hvu, hdp, htask, hra, hdel,
        ParseValidity, ParseProvision, XTime.before, FormatValidity,
        FormatProvision, Result.setOK, fromRequest]

/-- C4 witness: the grace-window behavior evaluated on the concrete remove
request `qRem` against the well-behaved oracle `oRemOk`. -/
theorem remove_grace_window_witness :
    (remove qRem oRemOk).1.code = resultOK ∧
    (remove qRem oRemOk).2.committed = true ∧
    ((remove qRem oRemOk).1.configuration.map fun c =>
        c.data.map fun d => (d.info.validUntil, d.info.deprovisionedAt))
      = [[(ValStr.instant (oRemOk.now + fifteenMin), ValStr.instant oRemOk.now)]] ∧
    (remove qRem oRemOk).2.provFinalizeExec =
      some (laEx.data.id, XTime.fin oRemOk.now,
        if qRem.flags.alarmClearing then taskClearing else taskDeprovision) :=
  remove_grace_window qRem oRemOk laEx rfl rfl (by decide) rfl rfl rfl rfl
    (fun hra => absurd hra (by decide)) rfl

/-- The configuration echoed by remove once an active revision was loaded:
its single data revision carries the clamped ValidUntil and the possibly
backdated DeprovisionedAt, in every post-load branch of the transaction. -/
theorem remove_echo (q : Request) (o : RemoveOracle) (la : LoadedActive)
    (hb : o.beginOk = true)
    (hload : o.loadActive = QueryOutcome.row la) :
    (remove q o).1.configuration =
      [{ la.cfg with data := [{ la.data with info := { la.data.info with
          validUntil := FormatValidity
            (if ParseValidity la.data.info.validUntil = XTime.posInf
             then (if q.configurationTask = taskDelete then XTime.fin o.now
                   else XTime.fin (o.now + fifteenMin))
             else ParseValidity la.data.info.validUntil),
          deprovisionedAt := FormatProvision
            (if XTime.before (ParseProvision la.data.info.deprovisionedAt)
                (XTime.fin o.now)
             then ParseProvision la.data.info.deprovisionedAt
             else XTime.fin o.now) } }] }] := by
  simp only [remove, hb, if_true, hload]
  cases o.setValidity with
  | err e => simp [Result.serverError, fromRequest]
  | ok n =>
    by_cases hn : n = 1 <;>
      simp only [hn, if_true, if_false, reduceIte] <;>
      try simp [Result.invariantViolation, fromRequest]
    cases o.provFinalize with
    | err e => simp [Result.serverError, fromRequest]
    | ok m =>
      by_cases hm : m = 1 <;>
        simp only [hm, if_true, if_false, reduceIte] <;>
        try simp [Result.invariantViolation, fromRequest]
      cases q.flags.resetActivation with
      | false =>
        cases o.commitOk <;>
          simp [Result.setOK, Result.serverError, fromRequest]
      | true =>
        cases o.activationDel with
        | err e => simp [Result.serverError, fromRequest]
        | ok k =>
          by_cases hk : k = 0 ∨ k = 1 <;>
            simp only [hk, if_true, if_false, reduceIte] <;>
            try simp [Result.invariantViolation, fromRequest]
          cases o.commitOk <;>
            simp [Result.setOK, Result.serverError, fromRequest]

/-- C5 counterexample: a remove at transaction timestamp 5 on a revision
whose DeprovisionedAt is the instant 10 writes DeprovisionedAt 5, which is
strictly below the pre-call value, so the claim that the new
DeprovisionedAt is at least the pre-call value is false. -/
theorem remove_monotonicity_cex :
    laC5.data.info.deprovisionedAt = ValStr.instant 10 ∧
    oRemC5.now = 5 ∧
    ((remove qRem oRemC5).1.configuration.map fun c =>
        c.data.map fun d => d.info.deprovisionedAt) = [[ValStr.instant 5]] ∧
    vleB (ValStr.instant 10) (ValStr.instant 5) = false := by
  exact ⟨rfl, rfl, rfl, rfl⟩

/-- The order on two instants is the order of their timestamps. -/
theorem vleB_inst_inst (a b : Int) :
    vleB (ValStr.instant a) (ValStr.instant b) = decide (a ≤ b) := by
  simp [vleB, vkey]

/-- Every instant precedes infinity. -/
theorem vleB_inst_infinity (a : Int) :
    vleB (ValStr.instant a) ValStr.infinity = true := by
  simp [vleB, vkey]

/-- The sentinel never precedes everything. -/
theorem vleB_never_any (v : ValStr) : vleB ValStr.never v = true := by
  cases v <;> simp [vleB, vkey]

/-- Minimum of an instant and infinity. -/
theorem vmin_inst_infinity (a : Int) :
    vmin (ValStr.instant a) ValStr.infinity = ValStr.instant a := by
  simp [vmin, vleB_inst_infinity]

/-- Minimum of two instants. -/
theorem vmin_inst_inst (a b : Int) :
    vmin (ValStr.instant a) (ValStr.instant b) = ValStr.instant (min a b) := by
  simp only [vmin, vleB_inst_inst]
  by_cases h : a ≤ b
  · simp [h, min_eq_left h]
  · simp [h, min_eq_right (le_of_not_le h)]

/-- C5 (amended): after remove on an active revision with well-formed
metadata (ValidUntil an instant or infinity, DeprovisionedAt an instant or
never), the echoed revision's ValidUntil is at most its pre-call value and
at least min(T, pre-call ValidUntil); its DeprovisionedAt is at most T and
at least the pre-call value whenever that value does not lie strictly
after T — a pre-call DeprovisionedAt strictly after T is overwritten with
T. -/
theorem remove_monotonicity (q : Request) (o : RemoveOracle) (la : LoadedActive)
    (hb : o.beginOk = true)
    (hload : o.loadActive = QueryOutcome.row la)
    (hvu : la.data.info.validUntil = ValStr.infinity ∨
           ∃ u, la.data.info.validUntil = ValStr.instant u)
    (hdp : la.data.info.deprovisionedAt = ValStr.never ∨
           ∃ d, la.data.info.deprovisionedAt = ValStr.instant d) :
    ∀ c ∈ (remove q o).1.configuration, ∀ d ∈ c.data,
      vleB d.info.validUntil la.data.info.validUntil = true ∧
      vleB (vmin (ValStr.instant o.now) la.data.info.validUntil) d.info.validUntil = true ∧
      vleB d.info.deprovisionedAt (ValStr.instant o.now) = true ∧
      (vleB la.data.info.deprovisionedAt (ValStr.instant o.now) = true →
        vleB la.data.info.deprovisionedAt d.info.deprovisionedAt = true) := by
  intro c hc d hd
  rw [remove_echo q o la hb hload] at hc
  simp only [List.mem_singleton] at hc
  subst hc
  simp only [List.mem_singleton] at hd
  subst hd
  refine ⟨?_, ?_, ?_, ?_⟩
  · rcases hvu with hvu | ⟨u, hvu⟩
    · by_cases hdel : q.configurationTask = taskDelete <;>
        simp [hvu, hdel, ParseValidity, FormatValidity, vleB_inst_infinity]
    · simp [hvu, ParseValidity, FormatValidity, vleB_inst_inst]
  · rcases hvu with hvu | ⟨u, hvu⟩
    · by_cases hdel : q.configurationTask = taskDelete <;>
        simp [hvu, hdel, ParseValidity, FormatValidity, vmin_inst_infinity,
          vleB_inst_inst, fifteenMin]
    · simp [hvu, ParseValidity, FormatValidity, vmin_inst_inst, vleB_inst_inst]
  · rcases hdp with hdp | ⟨dd, hdp⟩
    · simp [hdp, ParseProvision, FormatProvision, XTime.before, vleB_inst_inst]
    · by_cases hlt : dd < o.now <;>
        simp [hdp, ParseProvision, FormatProvision, XTime.before, hlt,
          vleB_inst_inst] <;>
        omega
  · intro hpre
    rcases hdp with hdp | ⟨dd, hdp⟩
    · simp [hdp, vleB_never_any]
    · rw [hdp] at hpre
      rw [vleB_inst_inst] at hpre
      have hle : dd ≤ o.now := of_decide_eq_true hpre
      by_cases hlt : dd < o.now <;>
        simp [hdp, ParseProvision, FormatProvision, XTime.before, hlt,
          vleB_inst_inst] <;>
        omega

/-- C5 witness: the amended monotonicity evaluated on the concrete remove
request `qRem` against the oracle `oRemOk` (pre-call ValidUntil infinity,
DeprovisionedAt never), at the concrete echoed revision `dataRemW`. -/
theorem remove_monotonicity_witness :
    vleB dataRemW.info.validUntil laEx.data.info.validUntil = true ∧
    vleB (vmin (ValStr.instant oRemOk.now) laEx.data.info.validUntil)
      dataRemW.info.validUntil = true ∧
    vleB dataRemW.info.deprovisionedAt (ValStr.instant oRemOk.now) = true ∧
    (vleB laEx.data.info.deprovisionedAt (ValStr.instant oRemOk.now) = true →
      vleB laEx.data.info.deprovisionedAt dataRemW.info.deprovisionedAt = true) :=
  remove_monotonicity qRem oRemOk laEx rfl rfl (Or.inl rfl) (Or.inl rfl)
    cfgRemW (by decide) dataRemW (by decide)

end Eye
